import Mathlib

/-!
Verification of the vector similarity store of the RAG_API repository
(`src/api/module/sqlitevec.py`, class `SQLiteVecDB`).

The Python module is embedded shallowly:

* Python floats are modelled as rationals (`ℚ`); the sqlite-vec engine's
  distance is modelled as squared L2 distance, which induces the same
  ordering (the spec's own contract is only "smaller distance means more
  similar", not a specific formula).
* The packed blob produced by `sqlite_vec.serialize_float32` is modelled
  as a wrapper around the numeric sequence; `vec_to_json` followed by
  `json.loads` unpacks it.
* The on-disk SQLite file is modelled as `DBFile`: either it contains the
  `vectors` virtual table (with its declared vector dimension and its rows
  in insertion = rowid order) or it does not.
* Exceptions are modelled by `PyErr`.  The code base defines no exception
  classes of its own: calling a `None` embedding function raises a
  `TypeError`, the embedding provider's own exceptions propagate verbatim
  (`providerError`), and sqlite3 raises `OperationalError` on missing
  tables or vector-dimension mismatches.  The constructors
  `configurationError`, `embeddingError` and `storageError` represent the
  error taxonomy named by the specification; nothing in `sqlitevec.py`
  raises them, which the theorems below make precise.
* Each operation takes the pre-state `DBFile` and returns the post-state,
  making mutation (or its absence) explicit.
-/

namespace RagApi

/-- The packed float32 blob produced by `sqlite_vec.serialize_float32`.
Byte-level float32 packing is abstracted: the blob carries the numeric
sequence it encodes. -/
structure Float32Blob where
  data : List ℚ
deriving DecidableEq

/-- Embedding of `sqlite_vec.serialize_float32` (sqlitevec.py line 101). -/
def serialize_float32 (v : List ℚ) : Float32Blob := ⟨v⟩

/-- Embedding of `vec_to_json` + `json.loads` (sqlitevec.py lines 115, 119):
unpacks a stored blob back into a numeric sequence. -/
def vec_to_json (b : Float32Blob) : List ℚ := b.data

/-- One row of the `vectors` virtual table (sqlitevec.py lines 78-83):
embedding blob, query text, content text, insertion timestamp. -/
structure Row where
  embedding : Float32Blob
  query : String
  content : String
  timestamp : ℚ
deriving DecidableEq

/-- The `vectors` vec0 virtual table: its declared vector dimension
(the `float[D]` column type) and its rows in insertion (rowid) order. -/
structure VecTable where
  dim : Nat
  rows : List Row
deriving DecidableEq

/-- The SQLite database file: it either holds the `vectors` table or not. -/
structure DBFile where
  table? : Option VecTable
deriving DecidableEq

/-- Python exceptions that the embedded operations can surface.
`typeError` is what `self.embed("test")` raises when the embedding
function is `None`; `providerError` is an exception propagated out of the
embedding provider; `operationalError` is a `sqlite3.OperationalError`
(missing table, vector dimension mismatch).  The final three constructors
are the specification's error taxonomy (`ConfigurationError`,
`EmbeddingError`, `StorageError`); `sqlitevec.py` defines and raises none
of them. -/
inductive PyErr where
  | typeError
  | providerError (msg : String)
  | operationalError (msg : String)
  | configurationError
  | embeddingError
  | storageError
deriving DecidableEq

/-- The embedding capability `embed(text) -> list of float`; it may raise
(modelled as `Except.error` carrying the provider's message). -/
abbrev EmbedFn : Type := String → Except String (List ℚ)

/-- Evaluating `self.embed(text)` in Python: if the stored function is
`None`, a `TypeError` is raised; otherwise the provider's exception, if
any, propagates. -/
def callEmbed (f? : Option EmbedFn) (text : String) : Except PyErr (List ℚ) :=
  match f? with
  | none => .error .typeError
  | some f =>
    match f text with
    | .error m => .error (.providerError m)
    | .ok v => .ok v

/-- The `SQLiteVecDB` object's attributes (sqlitevec.py lines 37-45):
database file path, optional embedding function, adopted dimensionality. -/
structure SQLiteVecDB where
  db_filepath : String
  embed : Option EmbedFn
  embedding_size : Nat

namespace SQLiteVecDB

/-- Embedding of `SQLiteVecDB.initialize_table` (sqlitevec.py lines 64-85):
`DROP TABLE IF EXISTS vectors` when `remove_old_table`, then
`CREATE VIRTUAL TABLE IF NOT EXISTS vectors USING vec0(...)` with the
store's dimensionality. -/
def initialize_table (D : Nat) (remove_old_table : Bool) (st : DBFile) : DBFile :=
  let st1 : DBFile := if remove_old_table then ⟨none⟩ else st
  match st1.table? with
  | none => ⟨some ⟨D, []⟩⟩
  | some _ => st1

/-- Embedding of `SQLiteVecDB.__init__` (sqlitevec.py lines 26-49).  When
`embedding_size` is absent the code runs `self.embed("test")` and adopts
the length of the result; with `embed` equal to `None` that call raises
`TypeError`, and a provider exception propagates.  When `init_db` is set
the constructor calls `initialize_table(remove_old_table=True)`.  The
third component of the result logs the texts actually passed to the
embedding capability, so that "the constructor never invokes `embed`"
is expressible. -/
def init (db_filepath : String) (embedding_size : Option Nat)
    (embedding_function : Option EmbedFn) (init_db : Bool) (st : DBFile) :
    Except PyErr SQLiteVecDB × DBFile × List String :=
  match embedding_size with
  | some D =>
    let cfg : SQLiteVecDB := ⟨db_filepath, embedding_function, D⟩
    if init_db then (.ok cfg, initialize_table D true st, [])
    else (.ok cfg, st, [])
  | none =>
    match embedding_function with
    | none => (.error .typeError, st, [])
    | some f =>
      match f "test" with
      | .error m => (.error (.providerError m), st, ["test"])
      | .ok v =>
        let cfg : SQLiteVecDB := ⟨db_filepath, some f, v.length⟩
        if init_db then (.ok cfg, initialize_table v.length true st, ["test"])
        else (.ok cfg, st, ["test"])

/-- Embedding of `SQLiteVecDB.add_one` (sqlitevec.py lines 88-104):
embed the query, truncate to `embedding_size`, serialize, INSERT, commit.
Modelled from the spec for the engine part: the vec0 table rejects an
INSERT whose vector length differs from the declared `float[D]` column
dimension, and a failed statement leaves the file unchanged (the commit
is atomic).  A missing `vectors` table is a sqlite3 `OperationalError`. -/
def add_one (db : SQLiteVecDB) (query content : String) (timestamp : ℚ)
    (st : DBFile) : Except PyErr Unit × DBFile :=
  match callEmbed db.embed query with
  | .error e => (.error e, st)
  | .ok embedding =>
    let truncated := embedding.take db.embedding_size
    match st.table? with
    | none => (.error (.operationalError "no such table: vectors"), st)
    | some t =>
      if truncated.length = t.dim then
        (.ok (), ⟨some ⟨t.dim,
          t.rows ++ [⟨serialize_float32 truncated, query, content, timestamp⟩]⟩⟩)
      else
        (.error (.operationalError "dimension mismatch"), st)

end SQLiteVecDB

/-- Squared L2 distance between two numeric sequences; stands in for the
sqlite-vec engine's L2 distance, of which it is a monotone image. -/
def dist2 (v w : List ℚ) : ℚ := ((v.zip w).map fun p => (p.1 - p.2) ^ 2).sum

/-- Comparison of two elements by a rational-valued key. -/
def keyLe {α : Type} (key : α → ℚ) (a b : α) : Prop := key a ≤ key b

instance {α : Type} (key : α → ℚ) : DecidableRel (keyLe key) :=
  fun a b => inferInstanceAs (Decidable (key a ≤ key b))

instance {α : Type} (key : α → ℚ) : IsTotal α (keyLe key) :=
  ⟨fun a b => le_total (key a) (key b)⟩

instance {α : Type} (key : α → ℚ) : IsTrans α (keyLe key) :=
  ⟨fun _ _ _ h1 h2 => le_trans h1 h2⟩

/-- Distance of a stored row's vector to a query vector. -/
def distKey (v : List ℚ) (r : Row) : ℚ := dist2 v (vec_to_json r.embedding)

/-- Row ordering used by the KNN query: ascending distance to the query
vector. -/
abbrev distLe (v : List ℚ) : Row → Row → Prop := keyLe (distKey v)

/-- Row ordering used by `get_all`: ascending timestamp. -/
abbrev tsLe : Row → Row → Prop := keyLe Row.timestamp

/-- Modelled from the spec: the sqlite-vec KNN query
`WHERE embedding MATCH ? AND k = ? ORDER BY distance ASC` returns the `k`
rows of smallest distance to the query vector, ordered ascending by
distance, ties broken by insertion order (earliest first) — a stable sort
by distance followed by taking the first `k`. -/
def knn (v : List ℚ) (k : Nat) (rows : List Row) : List (String × String × ℚ) :=
  ((List.insertionSort (distLe v) rows).take k).map
    fun r => (r.query, r.content, distKey v r)

namespace SQLiteVecDB

/-- Embedding of `SQLiteVecDB.search` (sqlitevec.py lines 131-157): embed
the query, truncate to `embedding_size`, run the KNN query.  The engine
rejects a query vector whose length differs from the declared column
dimension; a missing table is a sqlite3 `OperationalError`.  The returned
post-state makes explicit that search never mutates the file. -/
def search (db : SQLiteVecDB) (query : String) (k : Nat) (st : DBFile) :
    Except PyErr (List (String × String × ℚ)) × DBFile :=
  match callEmbed db.embed query with
  | .error e => (.error e, st)
  | .ok embedding =>
    let v := embedding.take db.embedding_size
    match st.table? with
    | none => (.error (.operationalError "no such table: vectors"), st)
    | some t =>
      if v.length = t.dim then (.ok (knn v k t.rows), st)
      else (.error (.operationalError "dimension mismatch"), st)

end SQLiteVecDB

/-- One row of the DataFrame returned by `get_all`: the deserialized
embedding plus the three text/number fields. -/
structure ExportRow where
  embedding : List ℚ
  query : String
  content : String
  timestamp : ℚ
deriving DecidableEq

/-- The dictionary built for one fetched row in `get_all`
(sqlitevec.py lines 118-125). -/
def exportRow (r : Row) : ExportRow :=
  ⟨vec_to_json r.embedding, r.query, r.content, r.timestamp⟩

namespace SQLiteVecDB

/-- Embedding of `SQLiteVecDB.get_all` (sqlitevec.py lines 107-128):
`SELECT vec_to_json(embedding), query, content, timestamp FROM vectors
ORDER BY timestamp ASC`.  Modelled from the spec for the engine part:
the ordering is a stable sort on the timestamp (rows with equal
timestamps keep insertion order).  A missing table is a sqlite3
`OperationalError`. -/
def get_all (st : DBFile) : Except PyErr (List ExportRow) :=
  match st.table? with
  | none => .error (.operationalError "no such table: vectors")
  | some t => .ok ((List.insertionSort tsLe t.rows).map exportRow)

end SQLiteVecDB

/-! ### Stability of the modelled sort

The sort used by the modelled engine is `List.insertionSort`, which is
stable: for every key value `d`, the elements whose key equals `d` appear
in the sorted output in the same relative order as in the input.  This is
the precise sense in which ties are broken by insertion order. -/

theorem filter_key_orderedInsert {α : Type} (key : α → ℚ) (d : ℚ) (a : α)
    (l : List α) :
    (l.orderedInsert (keyLe key) a).filter (fun x => decide (key x = d)) =
      ((a :: l).filter (fun x => decide (key x = d))) := by
  induction l with
  | nil => rfl
  | cons b t ih =>
    by_cases hab : keyLe key a b
    · simp [List.orderedInsert, hab]
    · have hba : key b < key a := lt_of_not_le hab
      simp only [List.orderedInsert, if_neg hab, List.filter_cons, ih]
      by_cases hbd : key b = d
      · have had : ¬ key a = d := fun h => absurd hba (by rw [h, hbd]; exact lt_irrefl d)
        simp [List.filter_cons, hbd, had]
      · by_cases had : key a = d <;> simp [List.filter_cons, had, hbd]

theorem filter_key_insertionSort {α : Type} (key : α → ℚ) (d : ℚ)
    (l : List α) :
    (l.insertionSort (keyLe key)).filter (fun x => decide (key x = d)) =
      l.filter (fun x => decide (key x = d)) := by
  induction l with
  | nil => rfl
  | cons a t ih =>
    rw [List.insertionSort, filter_key_orderedInsert, List.filter_cons,
      List.filter_cons, ih]

/-! ### Helper lemmas shared by several theorems -/

/-- `search` never mutates the database file: every branch returns the
pre-state unchanged. -/
theorem search_snd_eq (db : SQLiteVecDB) (q : String) (k : Nat) (st : DBFile) :
    (SQLiteVecDB.search db q k st).2 = st := by
  unfold SQLiteVecDB.search
  rcases h1 : callEmbed db.embed q with m | emb
  · rfl
  · simp only []
    rcases h2 : st.table? with _ | t
    · rfl
    · split
      · rfl
      · split <;> rfl

/-- A failed `add_one` leaves the database file exactly as it was. -/
theorem add_one_error_snd (db : SQLiteVecDB) (q c : String) (ts : ℚ)
    (st : DBFile) (e : PyErr)
    (h : (SQLiteVecDB.add_one db q c ts st).1 = .error e) :
    (SQLiteVecDB.add_one db q c ts st).2 = st := by
  unfold SQLiteVecDB.add_one at h ⊢
  rcases h1 : callEmbed db.embed q with m | emb
  · rfl
  · simp only [h1] at h ⊢
    rcases h2 : st.table? with _ | t
    · rfl
    · simp only [h2] at h ⊢
      split at h
      · exact absurd h (by simp)
      · split
        · exact absurd h (by simp_all)
        · rfl

/-- Successful reduction of `add_one` when the embedding succeeds and the
truncated vector matches the table dimension. -/
theorem add_one_ok (db : SQLiteVecDB) (q c : String) (ts : ℚ) (st : DBFile)
    (t : VecTable) (v : List ℚ)
    (hst : st.table? = some t) (hemb : callEmbed db.embed q = .ok v)
    (hfit : (v.take db.embedding_size).length = t.dim) :
    SQLiteVecDB.add_one db q c ts st =
      (.ok (), ⟨some ⟨t.dim, t.rows ++
        [⟨serialize_float32 (v.take db.embedding_size), q, c, ts⟩]⟩⟩) := by
  unfold SQLiteVecDB.add_one
  simp only [hemb, hst, if_pos hfit]

/-- Successful reduction of `search` when the embedding succeeds and the
truncated query vector matches the table dimension. -/
theorem search_ok (db : SQLiteVecDB) (q : String) (k : Nat) (st : DBFile)
    (t : VecTable) (v : List ℚ)
    (hst : st.table? = some t) (hemb : callEmbed db.embed q = .ok v)
    (hfit : (v.take db.embedding_size).length = t.dim) :
    SQLiteVecDB.search db q k st =
      (.ok (knn (v.take db.embedding_size) k t.rows), st) := by
  unfold SQLiteVecDB.search
  simp only [hemb, hst, if_pos hfit]

/-! ### Claim theorems -/

/-- C1: for a store of dimensionality `D`, every `add_one` call whose
embedding returns a vector of length at least `D` succeeds, and the row it
stores carries exactly the first `D` components of that vector (longer
vectors are truncated, not rejected); the stored vector's length is
exactly `D`. -/
theorem C1_add_one_dimensionality (db : SQLiteVecDB) (st : DBFile)
    (t : VecTable) (q c : String) (ts : ℚ) (v : List ℚ)
    (hst : st.table? = some t) (hdim : t.dim = db.embedding_size)
    (hemb : callEmbed db.embed q = .ok v)
    (hlen : db.embedding_size ≤ v.length) :
    (v.take db.embedding_size).length = db.embedding_size ∧
    SQLiteVecDB.add_one db q c ts st =
      (.ok (), ⟨some ⟨t.dim, t.rows ++
        [⟨serialize_float32 (v.take db.embedding_size), q, c, ts⟩]⟩⟩) := by
  have hL : (v.take db.embedding_size).length = db.embedding_size := by
    rw [List.length_take]; omega
  exact ⟨hL, add_one_ok db q c ts st t v hst hemb (by rw [hL, hdim])⟩

/-- C1 witness: a provider returning a length-3 vector into a store of
dimensionality 2 stores exactly the first 2 components. -/
theorem C1_add_one_dimensionality_witness :
    (([(1 : ℚ), 2, 3].take 2).length = 2) ∧
    SQLiteVecDB.add_one ⟨"db.sqlite", some fun _ => Except.ok [1, 2, 3], 2⟩
        "q" "c" 7 ⟨some ⟨2, []⟩⟩ =
      (.ok (), ⟨some ⟨2, [] ++
        [⟨serialize_float32 ([(1 : ℚ), 2, 3].take 2), "q", "c", 7⟩]⟩⟩) :=
  C1_add_one_dimensionality ⟨"db.sqlite", some fun _ => Except.ok [1, 2, 3], 2⟩
    ⟨some ⟨2, []⟩⟩ ⟨2, []⟩ "q" "c" 7 [1, 2, 3] rfl rfl rfl (by decide)

/-- C8: destructive schema reset is opt-in only.  `initialize_table`
without the destructive flag leaves an existing table and its rows
unchanged; table creation is idempotent; a constructor call with the
initialize flag unset performs no schema change at all; only the explicit
flag drops the table and recreates it empty. -/
theorem C8_initialize_opt_in (D : Nat) (st : DBFile) (t : VecTable)
    (path : String) (f? : Option EmbedFn) (hst : st.table? = some t) :
    SQLiteVecDB.initialize_table D false st = st ∧
    (∀ st' : DBFile,
      SQLiteVecDB.initialize_table D false
          (SQLiteVecDB.initialize_table D false st') =
        SQLiteVecDB.initialize_table D false st') ∧
    (SQLiteVecDB.init path (some D) f? false st).2.1 = st ∧
    SQLiteVecDB.initialize_table D true st = ⟨some ⟨D, []⟩⟩ ∧
    (SQLiteVecDB.init path (some D) f? true st).2.1 = ⟨some ⟨D, []⟩⟩ := by
  refine ⟨?_, ?_, rfl, rfl, rfl⟩
  · unfold SQLiteVecDB.initialize_table
    simp [hst]
  · intro st'
    unfold SQLiteVecDB.initialize_table
    rcases h : st'.table? with _ | t' <;> simp [h]

/-- C8 witness: a one-row table survives a non-destructive
`initialize_table` and a constructor call without the flag, and is wiped
by the destructive reset. -/
theorem C8_initialize_opt_in_witness :
    SQLiteVecDB.initialize_table 2 false
        ⟨some ⟨2, [⟨⟨[1, 0]⟩, "a", "A", 1⟩]⟩⟩ =
      ⟨some ⟨2, [⟨⟨[1, 0]⟩, "a", "A", 1⟩]⟩⟩ ∧
    (SQLiteVecDB.init "db.sqlite" (some 2) none false
        ⟨some ⟨2, [⟨⟨[1, 0]⟩, "a", "A", 1⟩]⟩⟩).2.1 =
      ⟨some ⟨2, [⟨⟨[1, 0]⟩, "a", "A", 1⟩]⟩⟩ ∧
    SQLiteVecDB.initialize_table 2 true
        ⟨some ⟨2, [⟨⟨[1, 0]⟩, "a", "A", 1⟩]⟩⟩ = ⟨some ⟨2, []⟩⟩ := by
  have h := C8_initialize_opt_in 2 ⟨some ⟨2, [⟨⟨[1, 0]⟩, "a", "A", 1⟩]⟩⟩
    ⟨2, [⟨⟨[1, 0]⟩, "a", "A", 1⟩]⟩ "db.sqlite" none rfl
  exact ⟨h.1, h.2.2.1, h.2.2.2.1⟩

/-- C9: insertion is atomic with respect to failure — any `add_one` call
that fails (embedding failure, missing table, dimension mismatch) leaves
the stored rows exactly as they were, and `search` never mutates the
store at all. -/
theorem C9_failed_add_one_no_mutation (db : SQLiteVecDB) (st : DBFile)
    (q c : String) (ts : ℚ) (k : Nat) :
    (∀ e, (SQLiteVecDB.add_one db q c ts st).1 = .error e →
      (SQLiteVecDB.add_one db q c ts st).2 = st) ∧
    (SQLiteVecDB.search db q k st).2 = st :=
  ⟨fun e h => add_one_error_snd db q c ts st e h, search_snd_eq db q k st⟩

/-- C9 witness: an `add_one` whose embedding call raises leaves the
(one-row) store unchanged. -/
theorem C9_failed_add_one_no_mutation_witness :
    (SQLiteVecDB.add_one ⟨"db.sqlite", some fun _ => Except.error "timeout", 2⟩
        "q" "c" 9 ⟨some ⟨2, [⟨⟨[1, 0]⟩, "a", "A", 1⟩]⟩⟩).1 =
      .error (.providerError "timeout") ∧
    (SQLiteVecDB.add_one ⟨"db.sqlite", some fun _ => Except.error "timeout", 2⟩
        "q" "c" 9 ⟨some ⟨2, [⟨⟨[1, 0]⟩, "a", "A", 1⟩]⟩⟩).2 =
      ⟨some ⟨2, [⟨⟨[1, 0]⟩, "a", "A", 1⟩]⟩⟩ :=
  ⟨rfl,
    (C9_failed_add_one_no_mutation
        ⟨"db.sqlite", some fun _ => Except.error "timeout", 2⟩
        ⟨some ⟨2, [⟨⟨[1, 0]⟩, "a", "A", 1⟩]⟩⟩ "q" "c" 9 0).1
      (.providerError "timeout") rfl⟩

/-- C10: when an explicit `embedding_size` is supplied, the constructor
makes no probe call (the invocation log is empty), succeeds for every
embedding capability including `none`, and adopts exactly the supplied
size and capability; `initialize_table` (whose very signature involves no
embedding capability) still initializes the schema on such a store, and
`get_all` still succeeds; only `add_one` and `search` need `embed`, and
with `embed` absent they raise `TypeError`. -/
theorem C10_explicit_size_skips_probe (path : String) (D : Nat)
    (f? : Option EmbedFn) (b : Bool) (st : DBFile) (t : VecTable)
    (hst : st.table? = some t) :
    (SQLiteVecDB.init path (some D) f? b st).2.2 = [] ∧
    (SQLiteVecDB.init path (some D) f? b st).1 = .ok ⟨path, f?, D⟩ ∧
    (SQLiteVecDB.init path (some D) f? true st).2.1 =
      SQLiteVecDB.initialize_table D true st ∧
    (∃ r, SQLiteVecDB.get_all st = .ok r) ∧
    (∀ q c ts, (SQLiteVecDB.add_one ⟨path, none, D⟩ q c ts st).1 =
      .error .typeError) ∧
    (∀ q k, (SQLiteVecDB.search ⟨path, none, D⟩ q k st).1 =
      .error .typeError) := by
  refine ⟨?_, ?_, rfl,
    ⟨(List.insertionSort tsLe t.rows).map exportRow, ?_⟩,
    fun q c ts => rfl, fun q k => rfl⟩
  · unfold SQLiteVecDB.init; rcases b <;> rfl
  · unfold SQLiteVecDB.init; rcases b <;> rfl
  · unfold SQLiteVecDB.get_all; rw [hst]

/-- C10 witness: a store built with explicit size 2 and no embedding
capability at all: empty probe log, successful construction, schema
initialization and `get_all` usable, `add_one`/`search` failing with
`TypeError`. -/
theorem C10_explicit_size_skips_probe_witness :
    (SQLiteVecDB.init "db.sqlite" (some 2) none false
        ⟨some ⟨2, [⟨⟨[1, 0]⟩, "a", "A", 1⟩]⟩⟩).2.2 = [] ∧
    (SQLiteVecDB.init "db.sqlite" (some 2) none false
        ⟨some ⟨2, [⟨⟨[1, 0]⟩, "a", "A", 1⟩]⟩⟩).1 = .ok ⟨"db.sqlite", none, 2⟩ ∧
    (∃ r, SQLiteVecDB.get_all ⟨some ⟨2, [⟨⟨[1, 0]⟩, "a", "A", 1⟩]⟩⟩ = .ok r) ∧
    (SQLiteVecDB.add_one ⟨"db.sqlite", none, 2⟩ "q" "c" 9
        ⟨some ⟨2, [⟨⟨[1, 0]⟩, "a", "A", 1⟩]⟩⟩).1 = .error .typeError ∧
    (SQLiteVecDB.search ⟨"db.sqlite", none, 2⟩ "q" 3
        ⟨some ⟨2, [⟨⟨[1, 0]⟩, "a", "A", 1⟩]⟩⟩).1 = .error .typeError := by
  have h := C10_explicit_size_skips_probe "db.sqlite" 2 none false
    ⟨some ⟨2, [⟨⟨[1, 0]⟩, "a", "A", 1⟩]⟩⟩ ⟨2, [⟨⟨[1, 0]⟩, "a", "A", 1⟩]⟩ rfl
  exact ⟨h.1, h.2.1, h.2.2.2.1, h.2.2.2.2.1 "q" "c" 9, h.2.2.2.2.2 "q" 3⟩

/-- C2 counterexample: constructing a store with no explicit
dimensionality and no embedding capability fails, but with a plain
`TypeError` (calling `None`), not with the `ConfigurationError` that the
claim names — `sqlitevec.py` defines no such class. -/
theorem C2_error_is_typeError_not_configurationError :
    (SQLiteVecDB.init "db.sqlite" none none false ⟨none⟩).1 =
      .error .typeError ∧
    PyErr.typeError ≠ PyErr.configurationError :=
  ⟨rfl, fun h => PyErr.noConfusion h⟩

/-- C2 (amended): at construction, if no explicit dimensionality is
supplied the store embeds the fixed probe string `"test"` and adopts the
length of the returned vector as its dimensionality; if no embed
capability is available the constructor raises `TypeError`, and if the
probe fails the provider's exception propagates — in both failure cases
before any schema is touched (the database file is returned unchanged). -/
theorem C2_init_probe_contract (path : String) (b : Bool) (st : DBFile) :
    SQLiteVecDB.init path none none b st = (.error .typeError, st, []) ∧
    (∀ f : EmbedFn, ∀ m, f "test" = .error m →
      SQLiteVecDB.init path none (some f) b st =
        (.error (.providerError m), st, ["test"])) ∧
    (∀ f : EmbedFn, ∀ v, f "test" = .ok v →
      ∃ cfg st2, SQLiteVecDB.init path none (some f) b st =
          (.ok cfg, st2, ["test"]) ∧ cfg.embedding_size = v.length) := by
  refine ⟨rfl, ?_, ?_⟩
  · intro f m h
    show (match f "test" with
      | Except.error m => (Except.error (PyErr.providerError m), st, ["test"])
      | Except.ok v =>
        let cfg : SQLiteVecDB := ⟨path, some f, v.length⟩
        if b then (Except.ok cfg, SQLiteVecDB.initialize_table v.length true st, ["test"])
        else (Except.ok cfg, st, ["test"])) = _
    rw [h]
  · intro f v h
    refine ⟨⟨path, some f, v.length⟩, ?_, ?_, rfl⟩
    · exact if b then SQLiteVecDB.initialize_table v.length true st else st
    · show (match f "test" with
        | Except.error m => (Except.error (PyErr.providerError m), st, ["test"])
        | Except.ok v =>
          let cfg : SQLiteVecDB := ⟨path, some f, v.length⟩
          if b then (Except.ok cfg, SQLiteVecDB.initialize_table v.length true st, ["test"])
          else (Except.ok cfg, st, ["test"])) = _
      rw [h]
      rcases b <;> rfl

/-- C2 witness: the no-capability case fails with `TypeError` leaving the
file untouched, and a probe raising `"probe failed"` propagates that
exception, also leaving the file untouched. -/
theorem C2_init_probe_contract_witness :
    SQLiteVecDB.init "db.sqlite" none none false ⟨none⟩ =
      (.error .typeError, ⟨none⟩, []) ∧
    SQLiteVecDB.init "db.sqlite" none
        (some fun _ => Except.error "probe failed") false ⟨none⟩ =
      (.error (.providerError "probe failed"), ⟨none⟩, ["test"]) :=
  ⟨(C2_init_probe_contract "db.sqlite" false ⟨none⟩).1,
    (C2_init_probe_contract "db.sqlite" false ⟨none⟩).2.1
      (fun _ => Except.error "probe failed") "probe failed" rfl⟩

/-- C3 counterexample: an embedding with fewer than `D` components makes
`add_one` fail in the storage layer with a sqlite `OperationalError`
(dimension mismatch), not with the `EmbeddingError` the claim names, and
a failing commit would likewise surface a sqlite error, not a
`StorageError` — `sqlitevec.py` defines neither class. -/
theorem C3_short_vector_not_embeddingError :
    SQLiteVecDB.add_one ⟨"db.sqlite", some fun _ => Except.ok [1], 3⟩
        "q" "c" 0 ⟨some ⟨3, []⟩⟩ =
      (.error (.operationalError "dimension mismatch"), ⟨some ⟨3, []⟩⟩) ∧
    PyErr.operationalError "dimension mismatch" ≠ PyErr.embeddingError ∧
    PyErr.operationalError "dimension mismatch" ≠ PyErr.storageError :=
  ⟨rfl, fun h => PyErr.noConfusion h, fun h => PyErr.noConfusion h⟩

/-- C3 (amended): `add_one` never succeeds when the embedding capability
fails or returns fewer than `D` components — but the errors are untyped:
a failing embedding call propagates the provider's own exception, and an
under-length embedding fails downstream in the storage layer with a
sqlite `OperationalError`; the code raises no `EmbeddingError` or
`StorageError`. -/
theorem C3_add_one_failure_modes (db : SQLiteVecDB) (st : DBFile)
    (t : VecTable) (q c : String) (ts : ℚ)
    (hst : st.table? = some t) (hdim : t.dim = db.embedding_size) :
    (∀ e, callEmbed db.embed q = .error e →
      SQLiteVecDB.add_one db q c ts st = (.error e, st)) ∧
    (∀ v, callEmbed db.embed q = .ok v → v.length < db.embedding_size →
      SQLiteVecDB.add_one db q c ts st =
        (.error (.operationalError "dimension mismatch"), st)) := by
  constructor
  · intro e h
    unfold SQLiteVecDB.add_one
    rw [h]
  · intro v h hlt
    unfold SQLiteVecDB.add_one
    rw [h]
    simp only [hst]
    rw [if_neg]
    rw [List.length_take, hdim]
    omega

/-- C3 witness: a provider exception propagates out of `add_one`
unchanged, and a 1-component embedding into a 3-dimensional store fails
with the sqlite dimension-mismatch error. -/
theorem C3_add_one_failure_modes_witness :
    SQLiteVecDB.add_one ⟨"db.sqlite", some fun _ => Except.error "boom", 3⟩
        "q" "c" 0 ⟨some ⟨3, []⟩⟩ =
      (.error (.providerError "boom"), ⟨some ⟨3, []⟩⟩) ∧
    SQLiteVecDB.add_one ⟨"db.sqlite", some fun _ => Except.ok [1], 3⟩
        "q" "c" 0 ⟨some ⟨3, []⟩⟩ =
      (.error (.operationalError "dimension mismatch"), ⟨some ⟨3, []⟩⟩) :=
  ⟨(C3_add_one_failure_modes ⟨"db.sqlite", some fun _ => Except.error "boom", 3⟩
      ⟨some ⟨3, []⟩⟩ ⟨3, []⟩ "q" "c" 0 rfl rfl).1 (.providerError "boom") rfl,
    (C3_add_one_failure_modes ⟨"db.sqlite", some fun _ => Except.ok [1], 3⟩
      ⟨some ⟨3, []⟩⟩ ⟨3, []⟩ "q" "c" 0 rfl rfl).2 [1] rfl (by decide)⟩

/-- C4: for a store holding `N` records, `search(q, k)` with any valid
`k ≥ 1` returns exactly `min(N, k)` results, and on an empty store it
returns the empty sequence (not an error). -/
theorem C4_search_cardinality (db : SQLiteVecDB) (st : DBFile)
    (t : VecTable) (q : String) (k : Nat) (v : List ℚ)
    (hst : st.table? = some t) (hemb : callEmbed db.embed q = .ok v)
    (hdim : t.dim = db.embedding_size) (hlen : db.embedding_size ≤ v.length)
    (_hk : 1 ≤ k) :
    ∃ res, SQLiteVecDB.search db q k st = (.ok res, st) ∧
      res.length = min t.rows.length k ∧ (t.rows = [] → res = []) := by
  have hfit : (v.take db.embedding_size).length = t.dim := by
    rw [List.length_take, hdim]; omega
  refine ⟨knn (v.take db.embedding_size) k t.rows,
    search_ok db q k st t v hst hemb hfit, ?_, ?_⟩
  · unfold knn
    rw [List.length_map, List.length_take, List.length_insertionSort,
      Nat.min_comm]
  · intro hrows
    unfold knn
    rw [hrows]
    simp [List.insertionSort]

/-- C4 witness (the spec's own scenario): `search` with `k = 5` on a
store holding 2 rows returns exactly `min 2 5 = 2` results and no
error. -/
theorem C4_search_cardinality_witness :
    ∃ res, SQLiteVecDB.search ⟨"db.sqlite", some fun _ => Except.ok [0, 0], 2⟩
        "q" 5 ⟨some ⟨2, [⟨⟨[1, 0]⟩, "a", "A", 1⟩, ⟨⟨[0, 1]⟩, "b", "B", 2⟩]⟩⟩ =
      (.ok res, ⟨some ⟨2, [⟨⟨[1, 0]⟩, "a", "A", 1⟩, ⟨⟨[0, 1]⟩, "b", "B", 2⟩]⟩⟩) ∧
      res.length = min 2 5 ∧
      ([⟨⟨[1, 0]⟩, "a", "A", 1⟩, ⟨⟨[0, 1]⟩, "b", "B", 2⟩] = ([] : List Row) →
        res = []) :=
  C4_search_cardinality ⟨"db.sqlite", some fun _ => Except.ok [0, 0], 2⟩
    ⟨some ⟨2, [⟨⟨[1, 0]⟩, "a", "A", 1⟩, ⟨⟨[0, 1]⟩, "b", "B", 2⟩]⟩⟩
    ⟨2, [⟨⟨[1, 0]⟩, "a", "A", 1⟩, ⟨⟨[0, 1]⟩, "b", "B", 2⟩]⟩
    "q" 5 [0, 0] rfl rfl rfl (by decide) (by decide)

/-- C6: search is deterministic.  The result depends only on the stored
data, the query's embedding vector and `k`: two stores with the same
dimensionality whose embedding capabilities agree on the query give
identical answers on the same file, a search call leaves the file
unchanged, and a second identical call on the post-state of the first
returns the identical ordered result sequence. -/
theorem C6_search_deterministic (db1 db2 : SQLiteVecDB) (st : DBFile)
    (q : String) (k : Nat)
    (hsize : db1.embedding_size = db2.embedding_size)
    (hq : callEmbed db1.embed q = callEmbed db2.embed q) :
    SQLiteVecDB.search db1 q k st = SQLiteVecDB.search db2 q k st ∧
    (SQLiteVecDB.search db1 q k st).2 = st ∧
    (SQLiteVecDB.search db1 q k ((SQLiteVecDB.search db1 q k st).2)).1 =
      (SQLiteVecDB.search db1 q k st).1 := by
  refine ⟨?_, search_snd_eq db1 q k st, by rw [search_snd_eq]⟩
  unfold SQLiteVecDB.search
  simp only [hq, hsize]

/-- C6 witness: repeating a search on the post-state of a first search
over a one-row store returns the identical result, and the file is
unchanged. -/
theorem C6_search_deterministic_witness :
    (SQLiteVecDB.search ⟨"db.sqlite", some fun _ => Except.ok [0, 0], 2⟩ "q" 3
        ⟨some ⟨2, [⟨⟨[1, 0]⟩, "a", "A", 1⟩]⟩⟩).2 =
      ⟨some ⟨2, [⟨⟨[1, 0]⟩, "a", "A", 1⟩]⟩⟩ ∧
    (SQLiteVecDB.search ⟨"db.sqlite", some fun _ => Except.ok [0, 0], 2⟩ "q" 3
        ((SQLiteVecDB.search ⟨"db.sqlite", some fun _ => Except.ok [0, 0], 2⟩
          "q" 3 ⟨some ⟨2, [⟨⟨[1, 0]⟩, "a", "A", 1⟩]⟩⟩).2)).1 =
      (SQLiteVecDB.search ⟨"db.sqlite", some fun _ => Except.ok [0, 0], 2⟩ "q" 3
        ⟨some ⟨2, [⟨⟨[1, 0]⟩, "a", "A", 1⟩]⟩⟩).1 :=
  ⟨(C6_search_deterministic ⟨"db.sqlite", some fun _ => Except.ok [0, 0], 2⟩
      ⟨"db.sqlite", some fun _ => Except.ok [0, 0], 2⟩
      ⟨some ⟨2, [⟨⟨[1, 0]⟩, "a", "A", 1⟩]⟩⟩ "q" 3 rfl rfl).2.1,
    (C6_search_deterministic ⟨"db.sqlite", some fun _ => Except.ok [0, 0], 2⟩
      ⟨"db.sqlite", some fun _ => Except.ok [0, 0], 2⟩
      ⟨some ⟨2, [⟨⟨[1, 0]⟩, "a", "A", 1⟩]⟩⟩ "q" 3 rfl rfl).2.2⟩

/-- C7: `get_all` returns every stored record — the exported list is a
permutation of the table's rows — ordered ascending by timestamp, each
packed embedding deserialized back into the numeric sequence that was
inserted (`vec_to_json` inverts `serialize_float32`); and when the
timestamps are nondecreasing in insertion order (successive wall-clock
readings), the output order is exactly insertion order. -/
theorem C7_get_all_contract (st : DBFile) (t : VecTable)
    (hst : st.table? = some t) :
    (∃ rows2 : List Row, List.Perm rows2 t.rows ∧ rows2.Sorted tsLe ∧
      SQLiteVecDB.get_all st = .ok (rows2.map exportRow)) ∧
    (∀ v : List ℚ, vec_to_json (serialize_float32 v) = v) ∧
    (t.rows.Sorted tsLe →
      SQLiteVecDB.get_all st = .ok (t.rows.map exportRow)) := by
  refine ⟨⟨List.insertionSort tsLe t.rows, List.perm_insertionSort tsLe t.rows,
      List.sorted_insertionSort tsLe t.rows, ?_⟩, fun v => rfl, ?_⟩
  · unfold SQLiteVecDB.get_all; rw [hst]
  · intro hsorted
    unfold SQLiteVecDB.get_all
    rw [hst]
    show Except.ok ((List.insertionSort tsLe t.rows).map exportRow) = _
    rw [hsorted.insertionSort_eq]

/-- C7 witness: a two-row store with increasing timestamps exports both
rows in insertion order with their numeric sequences restored. -/
theorem C7_get_all_contract_witness :
    SQLiteVecDB.get_all ⟨some ⟨2, [⟨⟨[1, 0]⟩, "a", "A", 1⟩,
        ⟨⟨[0, 1]⟩, "b", "B", 2⟩]⟩⟩ =
      .ok [⟨[1, 0], "a", "A", 1⟩, ⟨[0, 1], "b", "B", 2⟩] :=
  (C7_get_all_contract ⟨some ⟨2, [⟨⟨[1, 0]⟩, "a", "A", 1⟩,
      ⟨⟨[0, 1]⟩, "b", "B", 2⟩]⟩⟩ ⟨2, [⟨⟨[1, 0]⟩, "a", "A", 1⟩,
      ⟨⟨[0, 1]⟩, "b", "B", 2⟩]⟩ rfl).2.2 (by decide)

/-- C5: `search` returns the `k` stored rows nearest to the truncated
query vector: the result is the `k`-prefix of a distance-sorted
permutation of the stored rows, adjacent results have nondecreasing
distances, and ties on equal distance keep insertion order (for every
distance value, the rows at that distance appear in the same order as in
the stored table — the sort is stable). -/
theorem C5_search_ranking (db : SQLiteVecDB) (st : DBFile) (t : VecTable)
    (q : String) (k : Nat) (v : List ℚ)
    (hst : st.table? = some t) (hemb : callEmbed db.embed q = .ok v)
    (hfit : (v.take db.embedding_size).length = t.dim) :
    ∃ res sortedRows,
      SQLiteVecDB.search db q k st = (.ok res, st) ∧
      sortedRows =
        List.insertionSort (distLe (v.take db.embedding_size)) t.rows ∧
      List.Perm sortedRows t.rows ∧
      sortedRows.Sorted (distLe (v.take db.embedding_size)) ∧
      res = (sortedRows.take k).map
        (fun r => (r.query, r.content, distKey (v.take db.embedding_size) r)) ∧
      res.Pairwise (fun a b => a.2.2 ≤ b.2.2) ∧
      (∀ i (h : i + 1 < res.length),
        (res.get ⟨i, Nat.lt_of_succ_lt h⟩).2.2 ≤ (res.get ⟨i + 1, h⟩).2.2) ∧
      (∀ d : ℚ,
        sortedRows.filter
            (fun r => decide (distKey (v.take db.embedding_size) r = d)) =
          t.rows.filter
            (fun r => decide (distKey (v.take db.embedding_size) r = d))) := by
  have hsorted :
      (List.insertionSort (distLe (v.take db.embedding_size)) t.rows).Sorted
        (distLe (v.take db.embedding_size)) :=
    List.sorted_insertionSort _ _
  have htake :
      ((List.insertionSort (distLe (v.take db.embedding_size)) t.rows).take
        k).Pairwise (distLe (v.take db.embedding_size)) :=
    hsorted.sublist (List.take_sublist k _)
  have hpw :
      (knn (v.take db.embedding_size) k t.rows).Pairwise
        (fun a b => a.2.2 ≤ b.2.2) := by
    unfold knn
    exact List.pairwise_map.mpr (htake.imp fun hab => hab)
  refine ⟨knn (v.take db.embedding_size) k t.rows,
    List.insertionSort (distLe (v.take db.embedding_size)) t.rows,
    search_ok db q k st t v hst hemb hfit, rfl,
    List.perm_insertionSort _ _, hsorted, rfl, hpw, ?_, ?_⟩
  · intro i h
    exact List.pairwise_iff_get.mp hpw ⟨i, Nat.lt_of_succ_lt h⟩ ⟨i + 1, h⟩
      (Fin.mk_lt_mk.mpr (Nat.lt_succ_self i))
  · intro d
    exact filter_key_insertionSort (distKey (v.take db.embedding_size)) d t.rows

/-- C5 witness: query vector `[0, 0]` against rows at squared distances
1, 1 and 4; the two nearest rows are returned, in ascending distance,
with the tie between the first two broken in favor of the
earlier-inserted row. -/
theorem C5_search_ranking_witness :
    ∃ res sortedRows,
      SQLiteVecDB.search ⟨"db.sqlite", some fun _ => Except.ok [0, 0], 2⟩ "q" 2
          ⟨some ⟨2, [⟨⟨[1, 0]⟩, "a", "A", 1⟩, ⟨⟨[0, 1]⟩, "b", "B", 2⟩,
            ⟨⟨[2, 0]⟩, "c", "C", 3⟩]⟩⟩ =
        (.ok res, ⟨some ⟨2, [⟨⟨[1, 0]⟩, "a", "A", 1⟩, ⟨⟨[0, 1]⟩, "b", "B", 2⟩,
          ⟨⟨[2, 0]⟩, "c", "C", 3⟩]⟩⟩) ∧
      sortedRows = List.insertionSort (distLe [(0 : ℚ), 0])
        [⟨⟨[1, 0]⟩, "a", "A", 1⟩, ⟨⟨[0, 1]⟩, "b", "B", 2⟩,
          ⟨⟨[2, 0]⟩, "c", "C", 3⟩] ∧
      List.Perm sortedRows [⟨⟨[1, 0]⟩, "a", "A", 1⟩, ⟨⟨[0, 1]⟩, "b", "B", 2⟩,
        ⟨⟨[2, 0]⟩, "c", "C", 3⟩] ∧
      sortedRows.Sorted (distLe [(0 : ℚ), 0]) ∧
      res = (sortedRows.take 2).map
        (fun r => (r.query, r.content, distKey [(0 : ℚ), 0] r)) ∧
      res.Pairwise (fun a b => a.2.2 ≤ b.2.2) ∧
      (∀ i (h : i + 1 < res.length),
        (res.get ⟨i, Nat.lt_of_succ_lt h⟩).2.2 ≤ (res.get ⟨i + 1, h⟩).2.2) ∧
      (∀ d : ℚ,
        sortedRows.filter (fun r => decide (distKey [(0 : ℚ), 0] r = d)) =
          [⟨⟨[1, 0]⟩, "a", "A", 1⟩, ⟨⟨[0, 1]⟩, "b", "B", 2⟩,
            ⟨⟨[2, 0]⟩, "c", "C", 3⟩].filter
            (fun r => decide (distKey [(0 : ℚ), 0] r = d))) :=
  C5_search_ranking ⟨"db.sqlite", some fun _ => Except.ok [0, 0], 2⟩
    ⟨some ⟨2, [⟨⟨[1, 0]⟩, "a", "A", 1⟩, ⟨⟨[0, 1]⟩, "b", "B", 2⟩,
      ⟨⟨[2, 0]⟩, "c", "C", 3⟩]⟩⟩
    ⟨2, [⟨⟨[1, 0]⟩, "a", "A", 1⟩, ⟨⟨[0, 1]⟩, "b", "B", 2⟩,
      ⟨⟨[2, 0]⟩, "c", "C", 3⟩]⟩ "q" 2 [0, 0] rfl rfl rfl

end RagApi
